import Mathlib

/-!
Verification of the stock-analyzer scoring engine (`src/app.py`,
class `FinancialHealthChecker`) against its natural-language specification.

Shallow-embedding conventions:
* A statement cell is `Option ℚ`: `none` models both an absent entry and a
  pandas `NaN` (the two behave identically in every comparison the engine
  performs: comparisons with `NaN`/`None` are false, `NaN` is dropped by the
  regression mask).  Finite floats are modelled as exact rationals.
* A pandas `DataFrame` of statement data is a `Table`: a list of column
  labels (`periods`, in retrieval order, typically newest first) plus rows
  keyed by line-item name, each row aligned with `periods`.
* `stock.info` (the metrics map) is an association list from metric name to
  a rational value; `dict.get(k, None)` is `infoGet`.
* sklearn's `LinearRegression().fit(x, y).coef_[0]` is the ordinary
  least-squares slope, computed exactly over ℚ:
  `(n·Σxy − Σx·Σy) / (n·Σx² − (Σx)²)`.
* The data-retrieval collaborator (`yf.Ticker` and its statement
  properties) is a parameter `fetch : String → Except String StockData`;
  an exception raised during retrieval is the `Except.error` case, caught
  by the `try/except` wrapper of `analyze_stock`.
* Python string formatting of floats (`:.2f`, `:,.0f`, `repr`) is rendered
  from exact rationals (round-half-even, as Python's `format` rounds); the
  sign of a quantity that rounds to zero is dropped, a corner no claim
  exercises.
-/

namespace StockAnalyzer

/-- A single statement cell: `none` = absent line item / NaN. -/
abbrev Cell := Option ℚ

/-- A statement table (pandas `DataFrame`): column labels `periods` in
retrieval order (typically newest first) and rows keyed by line-item name,
values aligned with `periods`. -/
structure Table where
  periods : List ℕ
  rows : List (String × List Cell)

/-- The metrics map (`stock.info`): metric name ↦ scalar value. -/
abbrev InfoMap := List (String × ℚ)

/-- `DataFrame.empty`: true when either axis is empty. -/
def Table.isDFEmpty (t : Table) : Bool :=
  t.rows.isEmpty || t.periods.isEmpty

/-- `name in df.index`. -/
def Table.hasRow (t : Table) (name : String) : Bool :=
  t.rows.any (fun r => r.1 == name)

/-- `df.loc[name]`: the row's period-indexed series (in the table's raw
column order).  Missing row yields the empty series (the engine only calls
this under a `hasRow` guard). -/
def Table.loc (t : Table) (name : String) : List (ℕ × Cell) :=
  match t.rows.find? (fun r => r.1 == name) with
  | some r => t.periods.zip r.2
  | none => []

/-- `df.iloc[:, 0].get(name, None)`: latest-column value of a row, absent
rows and NaN cells both give `none`.  (Callers guard with `¬ isDFEmpty`.) -/
def latestGet (t : Table) (name : String) : Option ℚ :=
  (t.rows.find? (fun r => r.1 == name)).bind (fun r => r.2.head?.join)

/-- The latest-period value of a line item, with the engine's
`DataFrame.empty` guard folded in (used to state claims). -/
def Table.latest (t : Table) (name : String) : Option ℚ :=
  if t.isDFEmpty then none else latestGet t name

/-- Insert into a period-ascending series (helper for `sortByPeriod`). -/
def insertAsc (p : ℕ × Cell) : List (ℕ × Cell) → List (ℕ × Cell)
  | [] => [p]
  | q :: rest => if p.1 < q.1 then p :: q :: rest else q :: insertAsc p rest

/-- `Series.sort_index()`: sort a period-indexed series ascending by period
(periods are unique per the data model's invariant). -/
def sortByPeriod : List (ℕ × Cell) → List (ℕ × Cell)
  | [] => []
  | p :: rest => insertAsc p (sortByPeriod rest)

/-- Pointwise sum of two series sharing the same index in the same order
(pandas `Series + Series`; both operands always come from the same
`DataFrame` here, so label alignment is the identity).  `NaN` propagates. -/
def addSeries (a b : List (ℕ × Cell)) : List (ℕ × Cell) :=
  a.zipWith (fun p q => (p.1, match p.2, q.2 with
    | some x, some y => some (x + y)
    | _, _ => none)) b

/-- `dict.get(name, None)` on the metrics map. -/
def infoGet (info : InfoMap) (name : String) : Option ℚ :=
  (info.find? (fun p => p.1 == name)).map (fun p => p.2)

/-! ### Ordinary least-squares slope (sklearn `LinearRegression`) -/

/-- Sum of a list of rationals. -/
def sumQ : List ℚ → ℚ
  | [] => 0
  | x :: xs => x + sumQ xs

/-- Σx over a point list. -/
def Sx (ps : List (ℚ × ℚ)) : ℚ := sumQ (ps.map (fun p => p.1))

/-- Σy over a point list. -/
def Sy (ps : List (ℚ × ℚ)) : ℚ := sumQ (ps.map (fun p => p.2))

/-- Σxy over a point list. -/
def Sxy (ps : List (ℚ × ℚ)) : ℚ := sumQ (ps.map (fun p => p.1 * p.2))

/-- Numerator of the OLS slope: `n·Σxy − Σx·Σy`. -/
def slopeNum (ps : List (ℚ × ℚ)) : ℚ :=
  (ps.length : ℚ) * Sxy ps - Sx ps * Sy ps

/-- Denominator of the OLS slope: `n·Σx² − (Σx)²`. -/
def slopeDen (ps : List (ℚ × ℚ)) : ℚ :=
  (ps.length : ℚ) * sumQ (ps.map (fun p => p.1 * p.1)) - Sx ps * Sx ps

/-- The fitted least-squares slope `model.coef_[0]` of y against x. -/
def olsSlope (ps : List (ℚ × ℚ)) : ℚ := slopeNum ps / slopeDen ps

/-- `years = np.array(range(len(series)))` masked by `~np.isnan(values)`:
the regression points of a series.  Crucially the x-coordinate of a
surviving point is its ORIGINAL zero-based position in the full series
(the mask is applied to `years` and `values` alike, after indexing). -/
def validPointsAux : ℕ → List (ℕ × Cell) → List (ℚ × ℚ)
  | _, [] => []
  | i, (_, none) :: rest => validPointsAux (i + 1) rest
  | i, (_, some v) :: rest => ((i : ℚ), v) :: validPointsAux (i + 1) rest

/-- The non-missing values of a series, in series order. -/
def validValues : List (ℕ × Cell) → List ℚ
  | [] => []
  | (_, none) :: rest => validValues rest
  | (_, some v) :: rest => v :: validValues rest

/-- Slope-sign decision: `slope > 0` when increasing, `slope < 0` when
decreasing (exact comparison, no tolerance). -/
def trendVerdict (slope : ℚ) (increasing : Bool) : Bool :=
  if increasing then decide (slope > 0) else decide (slope < 0)

/-- `FinancialHealthChecker.check_trend_with_regression`
(src/app.py lines 14–44): return `false` when the raw series has fewer
than 2 entries, or fewer than 2 non-NaN entries remain after masking;
otherwise fit OLS and decide by slope sign. -/
def check_trend_with_regression (data_series : List (ℕ × Cell))
    (increasing : Bool) : Bool :=
  if data_series.length < 2 then false
  else if (validPointsAux 0 data_series).length < 2 then false
  else trendVerdict (olsSlope (validPointsAux 0 data_series)) increasing

/-! ### Python numeric formatting -/

/-- Round-half-even to an integer, as Python's `format` rounds exact
decimal quantities. -/
def roundHalfEven (q : ℚ) : ℤ :=
  let f := ⌊q⌋
  let r := q - (f : ℚ)
  if r < 1/2 then f
  else if 1/2 < r then f + 1
  else if f % 2 = 0 then f else f + 1

/-- Python `f"{x:.2f}"` rendered from an exact rational. -/
def formatRat2 (q : ℚ) : String :=
  let c := roundHalfEven (q * 100)
  let sign := if c < 0 then "-" else ""
  let a := c.natAbs
  sign ++ toString (a / 100) ++ "." ++
    (if a % 100 < 10 then "0" else "") ++ toString (a % 100)

/-- Insert a comma after every third character of a reversed digit list. -/
def insertCommasRev : List Char → List Char
  | a :: b :: c :: rest =>
    if rest.isEmpty then [a, b, c]
    else a :: b :: c :: ',' :: insertCommasRev rest
  | l => l

/-- Python `f"{x:,.0f}"`: round to an integer and group thousands. -/
def formatMoney0 (q : ℚ) : String :=
  let c := roundHalfEven q
  let sign := if c < 0 then "-" else ""
  sign ++ String.mk ((insertCommasRev (toString c.natAbs).data.reverse).reverse)

/-- Raw rendering of a metric value (Python prints the float itself). -/
def ratToString (q : ℚ) : String := toString q

/-! ### The ten checks (src/app.py lines 62–245) -/

/-- One per-check record of the analysis (`checks.append({...})`). -/
structure CheckResult where
  id : ℕ
  name : String
  description : String
  passed : Bool
  details : String

/-- Check 1 — PE/PEG ratio (lines 64–80).  The pass decision tests
`is not None`; the details text tests Python truthiness (`if pe_ratio`),
so a present zero value is formatted as "N/A". -/
def mkCheck1 (info : InfoMap) : CheckResult :=
  let pe_ratio := infoGet info "trailingPE"
  let peg_ratio := infoGet info "trailingPegRatio"
  let pe_good : Bool := match pe_ratio with
    | some x => decide (x < 25)
    | none => false
  let peg_good : Bool := match peg_ratio with
    | some x => decide (x < 1)
    | none => false
  let check1_pass := pe_good || peg_good
  let pe_text := match pe_ratio with
    | some x => if x = 0 then "PE: N/A" else "PE: " ++ formatRat2 x
    | none => "PE: N/A"
  let peg_text := match peg_ratio with
    | some x => if x = 0 then "PEG: N/A" else "PEG: " ++ formatRat2 x
    | none => "PEG: N/A"
  { id := 1, name := "P/E < 25 || PEG < 1.0", description := "Valuation metrics",
    passed := check1_pass, details := pe_text ++ ", " ++ peg_text }

/-- Check 2 — revenue trend (lines 82–95). -/
def mkCheck2 (financials : Table) : CheckResult :=
  let pd : Bool × String :=
    if !financials.isDFEmpty && financials.hasRow "Total Revenue" then
      let pass := check_trend_with_regression
        (sortByPeriod (financials.loc "Total Revenue")) true
      (pass, if pass then "Positive trend detected" else "No clear growth trend")
    else (false, "No data available")
  { id := 2, name := "Revenue Growth", description := "5-year increasing trend",
    passed := pd.1, details := pd.2 }

/-- Check 3 — operating income trend (lines 97–110). -/
def mkCheck3 (financials : Table) : CheckResult :=
  let pd : Bool × String :=
    if !financials.isDFEmpty && financials.hasRow "Operating Income" then
      let pass := check_trend_with_regression
        (sortByPeriod (financials.loc "Operating Income")) true
      (pass, if pass then "Consistent growth pattern" else "Declining or flat trend")
    else (false, "No data available")
  { id := 3, name := "Operating Income Growth", description := "5-year increasing trend",
    passed := pd.1, details := pd.2 }

/-- Check 4 — net income trend (lines 112–125). -/
def mkCheck4 (financials : Table) : CheckResult :=
  let pd : Bool × String :=
    if !financials.isDFEmpty && financials.hasRow "Net Income" then
      let pass := check_trend_with_regression
        (sortByPeriod (financials.loc "Net Income")) true
      (pass, if pass then "Strong profitability trend" else "Declining profitability")
    else (false, "No data available")
  { id := 4, name := "Net Income Growth", description := "5-year increasing trend",
    passed := pd.1, details := pd.2 }

/-- Check 5 — current assets vs current liabilities (lines 127–146).
(The ratio in the details is exact rational division; Python's float
division by a zero liability would print `inf`, a corner no claim tests.) -/
def mkCheck5 (balance_sheet : Table) : CheckResult :=
  let pd : Bool × String :=
    if !balance_sheet.isDFEmpty then
      match latestGet balance_sheet "Current Assets",
            latestGet balance_sheet "Current Liabilities" with
      | some current_assets, some current_liabilities =>
        let pass := decide (current_assets > current_liabilities)
        let ratio := current_assets / current_liabilities
        (pass, if pass then "Current ratio: " ++ formatRat2 ratio
               else "Poor liquidity - ratio: " ++ formatRat2 ratio)
      | _, _ => (false, "Balance sheet data incomplete")
    else (false, "No data available")
  { id := 5, name := "Current Assets > Current Liabilities",
    description := "Liquidity position", passed := pd.1, details := pd.2 }

/-- Check 6 — long-term debt to net profit (lines 148–169).  The division
is evaluated only under the `latest_net_income > 0` guard. -/
def mkCheck6 (balance_sheet financials : Table) : CheckResult :=
  let pd : Bool × String :=
    if !balance_sheet.isDFEmpty && !financials.isDFEmpty then
      if financials.hasRow "Net Income" then
        match latestGet balance_sheet "Long Term Debt",
              latestGet financials "Net Income" with
        | some long_term_debt, some latest_net_income =>
          if 0 < latest_net_income then
            let debt_ratio := long_term_debt / latest_net_income
            if debt_ratio < 4 then
              (true, "Debt/Profit ratio: " ++ formatRat2 debt_ratio)
            else (false, "High debt ratio: " ++ formatRat2 debt_ratio)
          else (false, "Insufficient data for calculation")
        | _, _ => (false, "Insufficient data for calculation")
      else (false, "No data available")
    else (false, "No data available")
  { id := 6, name := "Long-term Debt/Net Profit < 4",
    description := "Debt management", passed := pd.1, details := pd.2 }

/-- Check 7 — stockholders' equity trend (lines 171–184). -/
def mkCheck7 (balance_sheet : Table) : CheckResult :=
  let pd : Bool × String :=
    if !balance_sheet.isDFEmpty && balance_sheet.hasRow "Stockholders Equity" then
      let pass := check_trend_with_regression
        (sortByPeriod (balance_sheet.loc "Stockholders Equity")) true
      (pass, if pass then "Growing shareholder value" else "Declining equity trend")
    else (false, "No data available")
  { id := 7, name := "Stockholders\x27 Equity Growth",
    description := "5-year increasing trend", passed := pd.1, details := pd.2 }

/-- Check 8 — shares outstanding decreasing (lines 186–199). -/
def mkCheck8 (balance_sheet : Table) : CheckResult :=
  let pd : Bool × String :=
    if !balance_sheet.isDFEmpty && balance_sheet.hasRow "Ordinary Shares Number" then
      let pass := check_trend_with_regression
        (sortByPeriod (balance_sheet.loc "Ordinary Shares Number")) false
      (pass, if pass then "Active share repurchase program"
             else "No significant buyback activity")
    else (false, "No data available")
  { id := 8, name := "Shares Outstanding Decreasing",
    description := "Share buyback trend", passed := pd.1, details := pd.2 }

/-- Check 9 — cash-flow comparison (lines 201–222).  Each of the two
comparisons requires both of its operands; a missing operand makes that
comparison `false`. -/
def mkCheck9 (cashflow : Table) : CheckResult :=
  let pd : Bool × String :=
    if !cashflow.isDFEmpty then
      let operating_cf := latestGet cashflow "Operating Cash Flow"
      let investing_cf := latestGet cashflow "Investing Cash Flow"
      let financing_cf := latestGet cashflow "Financing Cash Flow"
      let op_vs_inv : Bool := match operating_cf, investing_cf with
        | some o, some i => decide (o > |i|)
        | _, _ => false
      let op_vs_fin : Bool := match operating_cf, financing_cf with
        | some o, some f => decide (o > |f|)
        | _, _ => false
      let pass := op_vs_inv && op_vs_fin
      (pass, if pass then "Strong operational cash generation"
             else "Weak cash flow position")
    else (false, "No data available")
  { id := 9, name := "Operating CF > Investing & Financing CF",
    description := "Cash flow strength", passed := pd.1, details := pd.2 }

/-- Check 10 — free cash flow trend (lines 224–245).  The direct branch
sorts the series ascending (`sort_index`); the derived branch feeds
`operating_cf + capex` to the regression in the table's RAW column order
(the source omits `sort_index()` there — transcribed as-is). -/
def mkCheck10 (cashflow : Table) : CheckResult :=
  let pd : Bool × String :=
    if !cashflow.isDFEmpty then
      if cashflow.hasRow "Free Cash Flow" then
        let pass := check_trend_with_regression
          (sortByPeriod (cashflow.loc "Free Cash Flow")) true
        (pass, if pass then "Consistent FCF improvement"
               else "Declining free cash flow")
      else if cashflow.hasRow "Operating Cash Flow" &&
              cashflow.hasRow "Capital Expenditures" then
        let fcf_calculated := addSeries (cashflow.loc "Operating Cash Flow")
          (cashflow.loc "Capital Expenditures")
        let pass := check_trend_with_regression fcf_calculated true
        (pass, if pass then "Improving calculated FCF"
               else "Declining calculated FCF")
      else (false, "No data available")
    else (false, "No data available")
  { id := 10, name := "Free Cash Flow Growth",
    description := "5-year increasing trend", passed := pd.1, details := pd.2 }

/-- The ten checks in program order (the source appends each
unconditionally to `checks`, so the result is this literal list). -/
def analyzeChecks (info : InfoMap) (financials balance_sheet cashflow : Table) :
    List CheckResult :=
  [mkCheck1 info, mkCheck2 financials, mkCheck3 financials, mkCheck4 financials,
   mkCheck5 balance_sheet, mkCheck6 balance_sheet financials,
   mkCheck7 balance_sheet, mkCheck8 balance_sheet,
   mkCheck9 cashflow, mkCheck10 cashflow]

/-! ### Report generation (src/app.py lines 262–418) -/

/-- Render one sorted series, one line per non-missing value
(`for date, value in data.items(): if pd.notna(value): ...`);
`pre` is the indent, `cur` is `"$"` or `""`. -/
def linesOfSeries (pre cur : String) (s : List (ℕ × Cell)) : String :=
  (sortByPeriod s).foldr
    (fun p acc =>
      (match p.2 with
       | some v => pre ++ toString p.1 ++ ": " ++ cur ++ formatMoney0 v ++ "\n"
       | none => "") ++ acc) ""

/-- `generate_detailed_analysis`: the ten-section narrative report. -/
def generate_detailed_analysis (ticker : String) (info : InfoMap)
    (financials balance_sheet cashflow : Table) : String :=
  let sep := String.mk (List.replicate 60 '=')
  let s0 := "STOCK ANALYSIS FOR " ++ ticker ++ "\n" ++ sep ++ "\n\n"
  let s1 := "1. Latest PE Ratio: " ++
    (match infoGet info "trailingPE" with
     | some v => ratToString v
     | none => "N/A") ++ "\n" ++
    "   PEG Ratio: " ++
    (match infoGet info "trailingPegRatio" with
     | some v => ratToString v
     | none => "N/A") ++ "\n\n"
  let s2 := "2. Revenue for the past 5 years:\n" ++
    (if !financials.isDFEmpty && financials.hasRow "Total Revenue" then
       linesOfSeries "   " "$" (financials.loc "Total Revenue")
     else "   Revenue data not available\n") ++ "\n"
  let s3 := "3. Operating Income for the past 5 years:\n" ++
    (if !financials.isDFEmpty && financials.hasRow "Operating Income" then
       linesOfSeries "   " "$" (financials.loc "Operating Income")
     else "   Operating Income data not available\n") ++ "\n"
  let s4 := "4. Net Income for the past 5 years:\n" ++
    (if !financials.isDFEmpty && financials.hasRow "Net Income" then
       linesOfSeries "   " "$" (financials.loc "Net Income")
     else "   Net Income data not available\n") ++ "\n"
  let s5 := "5. Latest Current Assets and Current Liabilities:\n" ++
    (if !balance_sheet.isDFEmpty then
       (match latestGet balance_sheet "Current Assets" with
        | some v => "   Current Assets: $" ++ formatMoney0 v ++ "\n"
        | none => "   Current Assets: N/A\n") ++
       (match latestGet balance_sheet "Current Liabilities" with
        | some v => "   Current Liabilities: $" ++ formatMoney0 v ++ "\n"
        | none => "   Current Liabilities: N/A\n")
     else "   Balance sheet data not available\n") ++ "\n"
  let s6 := "6. Latest Long Term Debt:\n" ++
    (if !balance_sheet.isDFEmpty then
       match latestGet balance_sheet "Long Term Debt" with
       | some v => "   $" ++ formatMoney0 v ++ "\n"
       | none => "   N/A\n"
     else "   Balance sheet data not available\n") ++ "\n"
  let s7 := "7. Stockholders\x27 Equity for the past 5 years:\n" ++
    (if !balance_sheet.isDFEmpty && balance_sheet.hasRow "Stockholders Equity" then
       linesOfSeries "   " "$" (balance_sheet.loc "Stockholders Equity")
     else "   Stockholders\x27 Equity data not available\n") ++ "\n"
  let s8 := "8. Shares Outstanding for the past 5 years:\n" ++
    (match infoGet info "sharesOutstanding" with
     | some v => "   Latest: " ++ formatMoney0 v ++ "\n"
     | none => "   Current shares outstanding not available\n") ++
    (if !balance_sheet.isDFEmpty && balance_sheet.hasRow "Ordinary Shares Number" then
       linesOfSeries "   " "" (balance_sheet.loc "Ordinary Shares Number")
     else "") ++ "\n"
  let s9 := "9. Latest Cash Flow Data:\n" ++
    (if !cashflow.isDFEmpty then
       (match latestGet cashflow "Operating Cash Flow" with
        | some v => "   Operating Cash Flow: $" ++ formatMoney0 v ++ "\n"
        | none => "   Operating Cash Flow: N/A\n") ++
       (match latestGet cashflow "Investing Cash Flow" with
        | some v => "   Investing Cash Flow: $" ++ formatMoney0 v ++ "\n"
        | none => "   Investing Cash Flow: N/A\n") ++
       (match latestGet cashflow "Financing Cash Flow" with
        | some v => "   Financing Cash Flow: $" ++ formatMoney0 v ++ "\n"
        | none => "   Financing Cash Flow: N/A\n")
     else "   Cash flow data not available\n") ++ "\n"
  let s10 := "10. Free Cash Flow for the past 5 years:\n" ++
    (if !cashflow.isDFEmpty then
       if cashflow.hasRow "Free Cash Flow" then
         linesOfSeries "    " "$" (cashflow.loc "Free Cash Flow")
       else if cashflow.hasRow "Operating Cash Flow" &&
               cashflow.hasRow "Capital Expenditures" then
         "    (Calculated as Operating Cash Flow - Capital Expenditures)\n" ++
         linesOfSeries "    " "$" (addSeries (cashflow.loc "Operating Cash Flow")
           (cashflow.loc "Capital Expenditures"))
       else "    Free Cash Flow data not available\n"
     else "    Cash flow data not available\n") ++ "\n"
  s0 ++ s1 ++ s2 ++ s3 ++ s4 ++ s5 ++ s6 ++ s7 ++ s8 ++ s9 ++ s10

/-! ### The analysis boundary (src/app.py lines 46–260) -/

/-- Everything the data-retrieval collaborator supplies for one ticker. -/
structure StockData where
  info : InfoMap
  financials : Table
  balance_sheet : Table
  cashflow : Table

/-- The value returned by `analyze_stock`:
`{'success': True, 'checks': ..., 'detailedAnalysis': ...}` or
`{'success': False, 'error': ...}`. -/
inductive AnalyzeResult where
  | ok (checks : List CheckResult) (detailedAnalysis : String)
  | err (error : String)

/-- `FinancialHealthChecker.analyze_stock`.  The retrieval collaborator is
the parameter `fetch`; an exception it raises is `Except.error` and is
caught by the method's `try/except`, as is the method's own
`ValueError("No data found for ticker ...")` raised when the info map has
fewer than 5 entries (`if not info or len(info) < 5`; an empty dict has
length 0, so the emptiness test is subsumed). -/
def analyze_stock (fetch : String → Except String StockData)
    (ticker : String) : AnalyzeResult :=
  match fetch ticker with
  | .error e => .err e
  | .ok d =>
    if d.info.length < 5 then
      .err ("No data found for ticker " ++ ticker)
    else
      .ok (analyzeChecks d.info d.financials d.balance_sheet d.cashflow)
        (generate_detailed_analysis ticker d.info d.financials
          d.balance_sheet d.cashflow)

/-! ### Concrete inputs used by witnesses and counterexamples -/

/-- Modelled from the amended claim C4: drop entries with missing value,
but fit against each surviving point's ORIGINAL zero-based position in
the full series (indices are assigned before the NaN mask is applied, so
the surviving x-values need not be consecutive). -/
def detect_trend_keepPositions (s : List (ℕ × Cell)) (increasing : Bool) : Bool :=
  if (validPointsAux 0 s).length < 2 then false
  else trendVerdict (olsSlope (validPointsAux 0 s)) increasing

/-- A constant two-point series (slope exactly zero). -/
def exConstSeries : List (ℕ × Cell) := [(0, some 5), (1, some 5)]

/-- A two-entry series whose values are all missing. -/
def exAllMissing : List (ℕ × Cell) := [(0, none), (1, none)]

/-- A strictly increasing three-point series. -/
def exIncSeries : List (ℕ × Cell) := [(0, some 1), (1, some 2), (2, some 3)]

/-- A strictly decreasing three-point series. -/
def exDecSeries : List (ℕ × Cell) := [(0, some 3), (1, some 2), (2, some 1)]

/-- Series separating x-as-original-position from x-re-indexed-0..k−1:
valid values 0, 6, 1 sit at positions 0, 1 and 3 (position 2 is missing).
Fitted against x = 0, 1, 3 the slope numerator is 5·1 − 6 − 4·0 = −1 < 0;
against re-numbered x = 0, 1, 2 it is 3·(1 − 0) = 3 > 0. -/
def exC4Series : List (ℕ × Cell) :=
  [(0, some 0), (1, some 6), (2, none), (3, some 1)]

/-- The spec's check-10 example, columns supplied newest-first: Operating
CF [100, 150] and Capital Expenditures [−20, −30] over ascending periods
2020, 2021; no "Free Cash Flow" line item. -/
def exCF2 : Table where
  periods := [2021, 2020]
  rows := [("Operating Cash Flow", [some 150, some 100]),
           ("Capital Expenditures", [some (-30), some (-20)])]

/-- Balance sheet of the spec's check-6 example: Long Term Debt 1000. -/
def exBS8 : Table where
  periods := [2023]
  rows := [("Long Term Debt", [some 1000])]

/-- Income statement of the spec's check-6 example: latest Net Income 200. -/
def exFin8 : Table where
  periods := [2023]
  rows := [("Net Income", [some 200])]

/-- Cash-flow statement of the spec's check-9 example. -/
def exCF9 : Table where
  periods := [2023]
  rows := [("Operating Cash Flow", [some 100]),
           ("Investing Cash Flow", [some (-50)]),
           ("Financing Cash Flow", [some (-60)])]

/-- A metrics map with a present-but-zero trailing P/E and no PEG. -/
def exInfo10 : InfoMap := [("trailingPE", 0)]

/-- A retrieval collaborator that raises. -/
def errFetch : String → Except String StockData :=
  fun _ => Except.error "boom"

/-- Statement data whose info map is too small (`len(info) < 5`). -/
def shortInfoData : StockData :=
  ⟨[], ⟨[], []⟩, ⟨[], []⟩, ⟨[], []⟩⟩

/-- A retrieval collaborator returning an unrecognizably small info map. -/
def shortFetch : String → Except String StockData :=
  fun _ => Except.ok shortInfoData

/-- Statement data with a populated-enough info map and empty tables. -/
def okData : StockData :=
  ⟨[("a", 1), ("b", 1), ("c", 1), ("d", 1), ("e", 1)],
   ⟨[], []⟩, ⟨[], []⟩, ⟨[], []⟩⟩

/-- A retrieval collaborator that succeeds with `okData`. -/
def okFetch : String → Except String StockData :=
  fun _ => Except.ok okData

/-! ### Lemmas about sums and the OLS slope -/

theorem sumQ_nonneg (l : List ℚ) (h : ∀ x ∈ l, 0 ≤ x) : 0 ≤ sumQ l := by
  induction l with
  | nil => simp [sumQ]
  | cons x xs ih =>
    have hx := h x (List.mem_cons_self x xs)
    have hxs := ih (fun y hy => h y (List.mem_cons_of_mem x hy))
    simp only [sumQ]
    linarith

theorem sumQ_pos (l : List ℚ) (hne : l ≠ []) (h : ∀ x ∈ l, 0 < x) :
    0 < sumQ l := by
  cases l with
  | nil => exact absurd rfl hne
  | cons x xs =>
    have hx := h x (List.mem_cons_self x xs)
    have hxs := sumQ_nonneg xs (fun y hy => le_of_lt (h y (List.mem_cons_of_mem x hy)))
    simp only [sumQ]
    linarith

theorem sumQ_map_neg {α : Type} (f : α → ℚ) (l : List α) :
    sumQ (l.map (fun a => -(f a))) = -sumQ (l.map f) := by
  induction l with
  | nil => simp [sumQ]
  | cons x xs ih => simp [sumQ, ih]; ring

/-- Cross-term expansion: Σ (xᵢ−a)(yᵢ−b) in terms of the basic sums. -/
theorem sumQ_cross (a b : ℚ) (ps : List (ℚ × ℚ)) :
    sumQ (ps.map (fun q => (q.1 - a) * (q.2 - b))) =
      Sxy ps - a * Sy ps - b * Sx ps + (ps.length : ℚ) * (a * b) := by
  induction ps with
  | nil => simp [sumQ, Sxy, Sy, Sx]
  | cons p ps ih =>
    simp only [List.map_cons, sumQ, Sxy, Sy, Sx, List.length_cons] at *
    push_cast
    linarith [ih]

/-- Prepending a point: `slopeNum (p :: ps) = slopeNum ps + Σ (xᵢ−px)(yᵢ−py)`. -/
theorem slopeNum_cons (p : ℚ × ℚ) (ps : List (ℚ × ℚ)) :
    slopeNum (p :: ps) =
      slopeNum ps + sumQ (ps.map (fun q => (q.1 - p.1) * (q.2 - p.2))) := by
  rw [sumQ_cross]
  simp only [slopeNum, Sxy, Sy, Sx, List.map_cons, sumQ, List.length_cons]
  push_cast
  ring

/-- Pairwise conjunction for lists. -/
theorem pairwise_and {α : Type} {R S : α → α → Prop} :
    ∀ {l : List α}, l.Pairwise R → l.Pairwise S →
      l.Pairwise (fun a b => R a b ∧ S a b) := by
  intro l
  induction l with
  | nil => intro _ _; exact List.Pairwise.nil
  | cons x xs ih =>
    intro hR hS
    rw [List.pairwise_cons] at hR hS ⊢
    exact ⟨fun y hy => ⟨hR.1 y hy, hS.1 y hy⟩, ih hR.2 hS.2⟩

/-- For points strictly increasing in both coordinates, the slope
numerator is nonnegative, and positive once there are ≥ 2 points. -/
theorem slopeNum_nonneg_pos :
    ∀ ps : List (ℚ × ℚ), ps.Pairwise (fun p q => p.1 < q.1 ∧ p.2 < q.2) →
      0 ≤ slopeNum ps ∧ (2 ≤ ps.length → 0 < slopeNum ps) := by
  intro ps h
  induction ps with
  | nil => simp [slopeNum, Sx, Sy, Sxy, sumQ]
  | cons p ps ih =>
    rw [List.pairwise_cons] at h
    obtain ⟨hp, hps⟩ := h
    obtain ⟨ih1, _⟩ := ih hps
    have hterm : ∀ x ∈ ps.map (fun q => (q.1 - p.1) * (q.2 - p.2)), 0 < x := by
      intro x hx
      rw [List.mem_map] at hx
      obtain ⟨q, hq, rfl⟩ := hx
      have hpq := hp q hq
      exact mul_pos (by linarith [hpq.1]) (by linarith [hpq.2])
    rw [slopeNum_cons]
    constructor
    · have := sumQ_nonneg _ (fun x hx => le_of_lt (hterm x hx))
      linarith
    · intro hlen
      have hne : ps ≠ [] := by
        intro hnil
        rw [hnil] at hlen
        simp at hlen
      have hmapne : ps.map (fun q => (q.1 - p.1) * (q.2 - p.2)) ≠ [] := by
        simpa using hne
      have := sumQ_pos _ hmapne hterm
      linarith

/-- The slope denominator is the numerator of the diagonal point list. -/
theorem slopeDen_eq_diag (ps : List (ℚ × ℚ)) :
    slopeDen ps = slopeNum (ps.map (fun p => (p.1, p.1))) := by
  simp only [slopeDen, slopeNum, Sx, Sy, Sxy, List.map_map, Function.comp_def,
    List.length_map]

/-- With ≥ 2 points of distinct (strictly increasing) x-coordinates the
slope denominator `n·Σx² − (Σx)²` is positive. -/
theorem slopeDen_pos (ps : List (ℚ × ℚ))
    (h : ps.Pairwise (fun p q => p.1 < q.1)) (h2 : 2 ≤ ps.length) :
    0 < slopeDen ps := by
  rw [slopeDen_eq_diag]
  refine (slopeNum_nonneg_pos _ ?_).2 (by simpa using h2)
  rw [List.pairwise_map]
  exact h.imp (fun hpq => ⟨hpq, hpq⟩)

/-- Negating the y-coordinates negates the slope numerator. -/
theorem slopeNum_map_neg (ps : List (ℚ × ℚ)) :
    slopeNum (ps.map (fun p => (p.1, -p.2))) = -slopeNum ps := by
  induction ps with
  | nil => simp [slopeNum, Sx, Sy, Sxy, sumQ]
  | cons p ps ih =>
    rw [List.map_cons, slopeNum_cons, slopeNum_cons]
    have hsum : sumQ ((ps.map (fun p => (p.1, -p.2))).map
        (fun q => (q.1 - p.1) * (q.2 - -p.2))) =
        -sumQ (ps.map (fun q => (q.1 - p.1) * (q.2 - p.2))) := by
      rw [List.map_map]
      have : ((fun q : ℚ × ℚ => (q.1 - p.1) * (q.2 - -p.2)) ∘
          (fun p : ℚ × ℚ => (p.1, -p.2))) =
          (fun q : ℚ × ℚ => -((q.1 - p.1) * (q.2 - p.2))) := by
        funext q
        simp [Function.comp]
        ring
      rw [this, sumQ_map_neg]
    rw [hsum, ih]
    ring

/-! ### Lemmas about the regression points of a series -/

theorem validPointsAux_map_snd :
    ∀ (l : List (ℕ × Cell)) (i : ℕ),
      (validPointsAux i l).map (fun p => p.2) = validValues l := by
  intro l
  induction l with
  | nil => intro i; simp [validPointsAux, validValues]
  | cons hd tl ih =>
    intro i
    obtain ⟨per, c⟩ := hd
    cases c with
    | none => simp [validPointsAux, validValues, ih]
    | some v => simp [validPointsAux, validValues, ih]

theorem validPointsAux_length :
    ∀ (l : List (ℕ × Cell)) (i : ℕ),
      (validPointsAux i l).length = (validValues l).length := by
  intro l i
  have := congrArg List.length (validPointsAux_map_snd l i)
  simpa using this

theorem validValues_length_le :
    ∀ l : List (ℕ × Cell), (validValues l).length ≤ l.length := by
  intro l
  induction l with
  | nil => simp [validValues]
  | cons hd tl ih =>
    obtain ⟨per, c⟩ := hd
    cases c with
    | none => simp [validValues]; omega
    | some v => simp [validValues]; omega

theorem validPointsAux_fst_le :
    ∀ (l : List (ℕ × Cell)) (i : ℕ), ∀ q ∈ validPointsAux i l, (i : ℚ) ≤ q.1 := by
  intro l
  induction l with
  | nil => intro i q hq; simp [validPointsAux] at hq
  | cons hd tl ih =>
    intro i q hq
    obtain ⟨per, c⟩ := hd
    cases c with
    | none =>
      simp only [validPointsAux] at hq
      have := ih (i + 1) q hq
      push_cast at this ⊢
      linarith
    | some v =>
      simp only [validPointsAux, List.mem_cons] at hq
      rcases hq with hq | hq
      · rw [hq]
      · have := ih (i + 1) q hq
        push_cast at this ⊢
        linarith

theorem validPointsAux_pairwise_fst :
    ∀ (l : List (ℕ × Cell)) (i : ℕ),
      (validPointsAux i l).Pairwise (fun p q => p.1 < q.1) := by
  intro l
  induction l with
  | nil => intro i; simp [validPointsAux]
  | cons hd tl ih =>
    intro i
    obtain ⟨per, c⟩ := hd
    cases c with
    | none => simpa [validPointsAux] using ih (i + 1)
    | some v =>
      simp only [validPointsAux]
      rw [List.pairwise_cons]
      refine ⟨fun q hq => ?_, ih (i + 1)⟩
      have := validPointsAux_fst_le tl (i + 1) q hq
      push_cast at this ⊢
      linarith

theorem validPointsAux_mem_snd (l : List (ℕ × Cell)) (i : ℕ) (q : ℚ × ℚ)
    (hq : q ∈ validPointsAux i l) : q.2 ∈ validValues l := by
  rw [← validPointsAux_map_snd l i]
  exact List.mem_map_of_mem (fun p => p.2) hq

/-- Once ≥ 2 valid points remain, the trend check is the slope-sign
verdict on the regression points. -/
theorem check_trend_eq_verdict (s : List (ℕ × Cell))
    (h2 : 2 ≤ (validPointsAux 0 s).length) (inc : Bool) :
    check_trend_with_regression s inc =
      trendVerdict (olsSlope (validPointsAux 0 s)) inc := by
  have hle : (validPointsAux 0 s).length ≤ s.length := by
    rw [validPointsAux_length]
    exact validValues_length_le s
  have hs : ¬s.length < 2 := by omega
  have hv : ¬(validPointsAux 0 s).length < 2 := by omega
  unfold check_trend_with_regression
  rw [if_neg hs, if_neg hv]

/-- With fewer than 2 valid points the trend check returns `false`. -/
theorem check_trend_false_of_lt2 (s : List (ℕ × Cell))
    (h : (validPointsAux 0 s).length < 2) (inc : Bool) :
    check_trend_with_regression s inc = false := by
  unfold check_trend_with_regression
  by_cases hs : s.length < 2
  · rw [if_pos hs]
  · rw [if_neg hs, if_pos h]

/-- A line item not in the index has no latest value. -/
theorem latestGet_eq_none (t : Table) (name : String)
    (h : t.hasRow name = false) : latestGet t name = none := by
  unfold latestGet
  have hfind : t.rows.find? (fun r => r.1 == name) = none := by
    rw [List.find?_eq_none]
    intro r hr
    unfold Table.hasRow at h
    rw [List.any_eq_false] at h
    exact h r hr
  rw [hfind]
  rfl

/-! ### Claim theorems -/

/-- Claim C6: for every series with fewer than 2 non-missing points
(including the empty series and a series whose values are all missing),
`check_trend_with_regression` returns `false` for both the increasing and
the decreasing direction — a "no trend" verdict, not an error. -/
theorem C6_too_few_points (s : List (ℕ × Cell))
    (h : (validValues s).length < 2) :
    check_trend_with_regression s true = false ∧
    check_trend_with_regression s false = false := by
  have h' : (validPointsAux 0 s).length < 2 := by
    rw [validPointsAux_length]
    exact h
  exact ⟨check_trend_false_of_lt2 s h' true, check_trend_false_of_lt2 s h' false⟩

/-- Witness for C6 at the all-missing two-entry series. -/
theorem C6_too_few_points_witness :
    (validValues exAllMissing).length < 2 ∧
    check_trend_with_regression exAllMissing true = false ∧
    check_trend_with_regression exAllMissing false = false :=
  ⟨by decide, C6_too_few_points exAllMissing (by decide)⟩

/-- Claim C5: once ≥ 2 non-missing points remain (so a line is fitted),
the verdict is decided by the sign of the fitted least-squares slope
alone — `slope > 0` for increasing, `slope < 0` for decreasing, with no
tolerance — and an exactly-zero slope fails both directions. -/
theorem C5_slope_sign_decision (s : List (ℕ × Cell))
    (h2 : 2 ≤ (validPointsAux 0 s).length) :
    (check_trend_with_regression s true =
        decide (olsSlope (validPointsAux 0 s) > 0) ∧
     check_trend_with_regression s false =
        decide (olsSlope (validPointsAux 0 s) < 0)) ∧
    (olsSlope (validPointsAux 0 s) = 0 →
      check_trend_with_regression s true = false ∧
      check_trend_with_regression s false = false) := by
  have e1 := check_trend_eq_verdict s h2 true
  have e2 := check_trend_eq_verdict s h2 false
  refine ⟨⟨by rw [e1]; rfl, by rw [e2]; rfl⟩, fun hz => ?_⟩
  rw [e1, e2, hz]
  exact ⟨by simp [trendVerdict], by simp [trendVerdict]⟩

/-- Witness for C5 at a constant series: its slope is exactly 0 and both
directions fail. -/
theorem C5_slope_sign_decision_witness :
    2 ≤ (validPointsAux 0 exConstSeries).length ∧
    ((check_trend_with_regression exConstSeries true =
        decide (olsSlope (validPointsAux 0 exConstSeries) > 0) ∧
      check_trend_with_regression exConstSeries false =
        decide (olsSlope (validPointsAux 0 exConstSeries) < 0)) ∧
     (olsSlope (validPointsAux 0 exConstSeries) = 0 →
       check_trend_with_regression exConstSeries true = false ∧
       check_trend_with_regression exConstSeries false = false)) :=
  ⟨by decide, C5_slope_sign_decision exConstSeries (by decide)⟩

/-- Counterexample to claim C4 as stated: the code's verdict differs from
the verdict on the subseries of non-missing entries (whose regression
indices ARE consecutive 0..k−1).  With valid values 0, 6, 1 at original
positions 0, 1, 3, the code's fit (x = 0, 1, 3) has negative slope, while
the dropped-and-reindexed fit (x = 0, 1, 2) has positive slope. -/
theorem C4_counterexample :
    check_trend_with_regression exC4Series true = false ∧
    check_trend_with_regression
      (exC4Series.filter (fun p => p.2.isSome)) true = true := by
  constructor
  · norm_num [exC4Series, check_trend_with_regression, validPointsAux,
      trendVerdict, olsSlope, slopeNum, slopeDen, Sx, Sy, Sxy, sumQ]
  · norm_num [exC4Series, check_trend_with_regression, validPointsAux,
      trendVerdict, olsSlope, slopeNum, slopeDen, Sx, Sy, Sxy, sumQ,
      List.filter]

/-- Claim C4 as amended: entries with missing value are dropped, but the
least-squares line is fitted against each surviving point's ORIGINAL
zero-based position in the full series (the index vector is built before
the NaN mask is applied), not against re-numbered indices 0..k−1. -/
theorem C4_amended_keep_positions (s : List (ℕ × Cell)) (inc : Bool) :
    check_trend_with_regression s inc = detect_trend_keepPositions s inc := by
  unfold check_trend_with_regression detect_trend_keepPositions
  by_cases hs : s.length < 2
  · have h' : (validPointsAux 0 s).length < 2 := by
      have h1 := validPointsAux_length s 0
      have h2 := validValues_length_le s
      omega
    rw [if_pos hs, if_pos h']
  · rw [if_neg hs]

/-- Claim C7: a series whose non-missing values are strictly increasing
(≥ 2 of them) passes the increasing test and fails the decreasing one;
symmetrically for strictly decreasing. -/
theorem C7_strict_monotone_series (s : List (ℕ × Cell)) :
    (2 ≤ (validValues s).length → (validValues s).Pairwise (· < ·) →
      check_trend_with_regression s true = true ∧
      check_trend_with_regression s false = false) ∧
    (2 ≤ (validValues s).length → (validValues s).Pairwise (· > ·) →
      check_trend_with_regression s false = true ∧
      check_trend_with_regression s true = false) := by
  have hmap : validValues s = (validPointsAux 0 s).map (fun p => p.2) :=
    (validPointsAux_map_snd s 0).symm
  have pairX := validPointsAux_pairwise_fst s 0
  constructor
  · intro hlen hsort
    have h2 : 2 ≤ (validPointsAux 0 s).length := by
      rw [validPointsAux_length]
      exact hlen
    have pairY : (validPointsAux 0 s).Pairwise (fun p q => p.2 < q.2) := by
      rw [hmap] at hsort
      exact List.pairwise_map.mp hsort
    have num_pos : 0 < slopeNum (validPointsAux 0 s) :=
      (slopeNum_nonneg_pos _ (pairwise_and pairX pairY)).2 h2
    have den_pos : 0 < slopeDen (validPointsAux 0 s) :=
      slopeDen_pos _ pairX h2
    have slope_pos : 0 < olsSlope (validPointsAux 0 s) :=
      div_pos num_pos den_pos
    rw [check_trend_eq_verdict s h2 true, check_trend_eq_verdict s h2 false]
    constructor
    · simpa [trendVerdict] using slope_pos
    · simpa [trendVerdict] using asymm slope_pos
  · intro hlen hsort
    have h2 : 2 ≤ (validPointsAux 0 s).length := by
      rw [validPointsAux_length]
      exact hlen
    have pairY : (validPointsAux 0 s).Pairwise (fun p q => q.2 < p.2) := by
      rw [hmap] at hsort
      exact List.pairwise_map.mp hsort
    have pairM : ((validPointsAux 0 s).map (fun p => (p.1, -p.2))).Pairwise
        (fun p q => p.1 < q.1 ∧ p.2 < q.2) := by
      rw [List.pairwise_map]
      exact (pairwise_and pairX pairY).imp
        (fun hpq => ⟨hpq.1, by simpa using hpq.2⟩)
    have numM_pos : 0 < slopeNum ((validPointsAux 0 s).map (fun p => (p.1, -p.2))) :=
      (slopeNum_nonneg_pos _ pairM).2 (by simpa using h2)
    have num_neg : slopeNum (validPointsAux 0 s) < 0 := by
      have := slopeNum_map_neg (validPointsAux 0 s)
      linarith
    have den_pos : 0 < slopeDen (validPointsAux 0 s) :=
      slopeDen_pos _ pairX h2
    have slope_neg : olsSlope (validPointsAux 0 s) < 0 :=
      div_neg_of_neg_of_pos num_neg den_pos
    rw [check_trend_eq_verdict s h2 true, check_trend_eq_verdict s h2 false]
    constructor
    · simpa [trendVerdict] using slope_neg
    · simpa [trendVerdict] using asymm slope_neg

/-- Witness for C7 at a strictly increasing and a strictly decreasing
three-point series. -/
theorem C7_strict_monotone_series_witness :
    (2 ≤ (validValues exIncSeries).length ∧
     (validValues exIncSeries).Pairwise (· < ·) ∧
     check_trend_with_regression exIncSeries true = true ∧
     check_trend_with_regression exIncSeries false = false) ∧
    (2 ≤ (validValues exDecSeries).length ∧
     (validValues exDecSeries).Pairwise (· > ·) ∧
     check_trend_with_regression exDecSeries false = true ∧
     check_trend_with_regression exDecSeries true = false) :=
  ⟨⟨by decide, by decide,
    (C7_strict_monotone_series exIncSeries).1 (by decide) (by decide)⟩,
   ⟨by decide, by decide,
    (C7_strict_monotone_series exDecSeries).2 (by decide) (by decide)⟩⟩

/-- Claim C8: check 6 passes exactly when the latest "Long Term Debt" is
present, the latest "Net Income" is present and positive, and their ratio
is < 4 (the division is evaluated only under the positivity guard); the
spec's example — debt 1000, net income 200, ratio 5 — fails. -/
theorem C8_check6_pass_iff :
    (∀ balance_sheet financials : Table,
      ((mkCheck6 balance_sheet financials).passed = true ↔
        ∃ d n, balance_sheet.latest "Long Term Debt" = some d ∧
          financials.latest "Net Income" = some n ∧ 0 < n ∧ d / n < 4)) ∧
    (mkCheck6 exBS8 exFin8).passed = false := by
  constructor
  · intro bs fin
    unfold mkCheck6 Table.latest
    by_cases hb : bs.isDFEmpty = true
    · simp [hb]
    · by_cases hf : fin.isDFEmpty = true
      · simp [hb, hf]
      · by_cases hn : fin.hasRow "Net Income" = true
        · simp only [hb, hf, hn, Bool.not_false, Bool.and_self, if_true,
            Bool.not_eq_true]
          cases hd : latestGet bs "Long Term Debt" with
          | none => simp [hd, hb, hf]
          | some d =>
            cases hni : latestGet fin "Net Income" with
            | none => simp [hd, hni, hb, hf]
            | some n =>
              simp only [hd, hni, hb, hf, if_false, Bool.not_eq_true]
              by_cases hpos : 0 < n
              · by_cases hr : d / n < 4
                · simp [hpos, hr]
                · simp [hpos, hr]
              · simp [hpos]
        · simp only [hb, hf, hn, Bool.not_false, Bool.and_self, if_true,
            Bool.not_eq_true, Bool.false_eq_true, if_false]
          have := latestGet_eq_none fin "Net Income"
            (by revert hn; cases fin.hasRow "Net Income" <;> simp)
          simp [this, hb, hf]
  · have h5 : (1000 : ℚ) / 200 = 5 := by norm_num
    norm_num [exBS8, exFin8, mkCheck6, Table.isDFEmpty, Table.hasRow,
      latestGet, List.find?, h5]

/-- Claim C9: check 9 passes exactly when the latest operating cash flow
exceeds the absolute values of both the latest investing and financing
cash flows, each comparison requiring both operands present (a missing
operand makes that comparison false); the spec's example 100, −50, −60
passes. -/
theorem C9_check9_pass_iff :
    (∀ cashflow : Table,
      ((mkCheck9 cashflow).passed = true ↔
        ((∃ o i, cashflow.latest "Operating Cash Flow" = some o ∧
            cashflow.latest "Investing Cash Flow" = some i ∧ |i| < o) ∧
         (∃ o f, cashflow.latest "Operating Cash Flow" = some o ∧
            cashflow.latest "Financing Cash Flow" = some f ∧ |f| < o)))) ∧
    (mkCheck9 exCF9).passed = true := by
  constructor
  · intro cf
    unfold mkCheck9 Table.latest
    by_cases hc : cf.isDFEmpty = true
    · simp [hc]
    · simp only [hc, Bool.not_false, if_true, Bool.not_eq_true, if_false]
      cases ho : latestGet cf "Operating Cash Flow" with
      | none => simp [ho, hc]
      | some o =>
        cases hi : latestGet cf "Investing Cash Flow" with
        | none => simp [ho, hi, hc]
        | some i =>
          cases hfin : latestGet cf "Financing Cash Flow" with
          | none => simp [ho, hi, hfin, hc]
          | some f => simp [ho, hi, hfin, hc, abs_lt, and_assoc, and_comm]
  · decide

/-- Claim C10: with a present-but-zero trailing P/E and an absent trailing
PEG, check 1 passes (the pass decision tests presence: `0 < 25`) yet its
details string reads "PE: N/A, PEG: N/A" (the formatting tests Python
truthiness, and `0` is falsy). -/
theorem C10_check1_zero_pe (info : InfoMap)
    (h1 : infoGet info "trailingPE" = some 0)
    (h2 : infoGet info "trailingPegRatio" = none) :
    (mkCheck1 info).passed = true ∧
    (mkCheck1 info).details = "PE: N/A, PEG: N/A" := by
  unfold mkCheck1
  rw [h1, h2]
  exact ⟨by decide, rfl⟩

/-- Witness for C10 at the metrics map `{"trailingPE": 0}`. -/
theorem C10_check1_zero_pe_witness :
    infoGet exInfo10 "trailingPE" = some 0 ∧
    infoGet exInfo10 "trailingPegRatio" = none ∧
    ((mkCheck1 exInfo10).passed = true ∧
     (mkCheck1 exInfo10).details = "PE: N/A, PEG: N/A") :=
  ⟨rfl, rfl, C10_check1_zero_pe exInfo10 rfl rfl⟩

/-- Claim C2 (code bug): on the spec's own check-10 example, supplied with
columns newest-first as statement tables are, the derived free-cash-flow
branch feeds the series to the regression in RAW column order — the
source omits the `sort_index()` that every other trend check (and the
report's own FCF section) performs — so the check FAILS, although the
same derived series in ascending period order shows the increasing trend
the spec requires. -/
theorem C2_derived_fcf_not_sorted :
    (mkCheck10 exCF2).passed = false ∧
    check_trend_with_regression
      (sortByPeriod (addSeries (exCF2.loc "Operating Cash Flow")
        (exCF2.loc "Capital Expenditures"))) true = true := by
  constructor
  · norm_num [exCF2, mkCheck10, Table.isDFEmpty, Table.hasRow, Table.loc,
      addSeries, check_trend_with_regression, validPointsAux, trendVerdict,
      olsSlope, slopeNum, slopeDen, Sx, Sy, Sxy, sumQ, List.find?]
    decide
  · norm_num [exCF2, Table.loc, addSeries, sortByPeriod, insertAsc,
      check_trend_with_regression, validPointsAux, trendVerdict,
      olsSlope, slopeNum, slopeDen, Sx, Sy, Sxy, sumQ, List.find?]

/-- Claim C1: once retrieval has succeeded, `analyze_stock` returns the
success value holding exactly the ten check results in program order —
ids 1..10 — for EVERY combination of present and absent line items,
periods and metrics (the check list is a literal sequence of ten appends,
each check a function of only its own inputs, so no check is skipped or
short-circuited by another's outcome); representatively, a financials
table without "Total Revenue" fails check 2 alone, with an explanatory
details string. -/
theorem C1_ten_checks (fetch : String → Except String StockData)
    (ticker : String) (d : StockData) (hf : fetch ticker = Except.ok d)
    (hinfo : 5 ≤ d.info.length) :
    analyze_stock fetch ticker =
      AnalyzeResult.ok
        (analyzeChecks d.info d.financials d.balance_sheet d.cashflow)
        (generate_detailed_analysis ticker d.info d.financials
          d.balance_sheet d.cashflow) ∧
    (analyzeChecks d.info d.financials d.balance_sheet d.cashflow).map
      (fun c => c.id) = [1, 2, 3, 4, 5, 6, 7, 8, 9, 10] ∧
    (d.financials.hasRow "Total Revenue" = false →
      ((analyzeChecks d.info d.financials d.balance_sheet d.cashflow).map
        (fun c => (c.passed, c.details)))[1]? =
          some (false, "No data available")) := by
  refine ⟨?_, rfl, ?_⟩
  · unfold analyze_stock
    rw [hf]
    dsimp only
    rw [if_neg (by omega)]
  · intro h
    unfold analyzeChecks mkCheck2
    simp [h]

/-- Witness for C1 at a successful fetch of a five-entry metrics map and
empty statement tables. -/
theorem C1_ten_checks_witness :
    analyze_stock okFetch "T" =
      AnalyzeResult.ok
        (analyzeChecks okData.info okData.financials okData.balance_sheet
          okData.cashflow)
        (generate_detailed_analysis "T" okData.info okData.financials
          okData.balance_sheet okData.cashflow) ∧
    (analyzeChecks okData.info okData.financials okData.balance_sheet
      okData.cashflow).map (fun c => c.id) = [1, 2, 3, 4, 5, 6, 7, 8, 9, 10] ∧
    ((analyzeChecks okData.info okData.financials okData.balance_sheet
      okData.cashflow).map (fun c => (c.passed, c.details)))[1]? =
        some (false, "No data available") :=
  ⟨(C1_ten_checks okFetch "T" okData rfl (by decide)).1,
   (C1_ten_checks okFetch "T" okData rfl (by decide)).2.1,
   (C1_ten_checks okFetch "T" okData rfl (by decide)).2.2 (by decide)⟩

/-- Claim C3: when obtaining statement data fails — the provider raises,
or the identifier yields an unrecognizably small info map — the whole
analysis is the single overall-failure value carrying the error text
(`AnalyzeResult.err` carries no check list by construction), never a
partial list of check results. -/
theorem C3_retrieval_failure (fetch : String → Except String StockData)
    (ticker : String) :
    (∀ e, fetch ticker = Except.error e →
      analyze_stock fetch ticker = AnalyzeResult.err e) ∧
    (∀ d, fetch ticker = Except.ok d → d.info.length < 5 →
      analyze_stock fetch ticker =
        AnalyzeResult.err ("No data found for ticker " ++ ticker)) := by
  constructor
  · intro e he
    unfold analyze_stock
    rw [he]
  · intro d hd hlen
    unfold analyze_stock
    rw [hd]
    dsimp only
    rw [if_pos hlen]

/-- Witness for C3: a raising provider and a too-small info map each
produce the overall-failure value. -/
theorem C3_retrieval_failure_witness :
    analyze_stock errFetch "AAPL" = AnalyzeResult.err "boom" ∧
    analyze_stock shortFetch "AAPL" =
      AnalyzeResult.err ("No data found for ticker " ++ "AAPL") :=
  ⟨(C3_retrieval_failure errFetch "AAPL").1 "boom" rfl,
   (C3_retrieval_failure shortFetch "AAPL").2 shortInfoData rfl (by decide)⟩

end StockAnalyzer
